import Mathlib

/-
Verification of the form/submission lifecycle workflow engine in
src/app/src/forms/form/service.js (common-hosted-form-service).

The JavaScript service is shallowly embedded as pure Lean functions over an
explicit database state.  Objection.js table accesses become list operations;
a `query(trx)` write is staged and applied at commit, a bare `query()` write
is applied to the durable state immediately (this distinction matters for
`publishDraft`, whose draft delete omits the transaction handle in the
source).  `uuid.v4()` calls are modelled by an explicit supply of fresh
identifiers passed as an argument.
-/

namespace Chefs

/-- JS `s.toUpperCase()` (ASCII content such as uuids), over the character list. -/
def jsUpper (s : String) : String := ⟨s.data.map Char.toUpper⟩

/-- JS `s.substring(0, 8)`, over the character list. -/
def jsTake8 (s : String) : String := ⟨s.data.take 8⟩

/-- JS truthiness of an optional string: `undefined` and the empty string are falsey. -/
def jsTruthyStr : Option String → Bool
  | none => false
  | some s => !s.isEmpty

/-- JS truthiness of an optional number: `undefined` and `0` are falsey. -/
def jsTruthyNat : Option Nat → Bool
  | none => false
  | some n => n != 0

/-- Modelled from the spec: `ScheduleType.MANUAL` from `common/constants`
(the constants module is not part of the provided sources). -/
def ScheduleTypeMANUAL : String := "manual"

/-- Modelled from the spec: `ScheduleType.CLOSINGDATE` from `common/constants`. -/
def ScheduleTypeCLOSINGDATE : String := "closingdate"

/-- Modelled from the spec: `Permissions.SUBMISSION_CREATE` from `common/constants`. -/
def PermSUBMISSION_CREATE : String := "submission_create"

/-- Modelled from the spec: `Permissions.SUBMISSION_READ` from `common/constants`. -/
def PermSUBMISSION_READ : String := "submission_read"

/-- Modelled from the spec: `Permissions.SUBMISSION_DELETE` from `common/constants`. -/
def PermSUBMISSION_DELETE : String := "submission_delete"

/-- Modelled from the spec: `Permissions.SUBMISSION_UPDATE` from `common/constants`. -/
def PermSUBMISSION_UPDATE : String := "submission_update"

/-- Modelled from the spec: `Statuses.SUBMITTED` from `common/constants`. -/
def StatusSUBMITTED : String := "SUBMITTED"

/-- A client-supplied date value; `parses` records whether the string is a
syntactically valid date (the outcome of the `moment` parse). -/
structure JsDate where
  raw : String
  parses : Bool
deriving DecidableEq

/-- Modelled from the spec: `isDateValid` from `common/scheduleService` (not in the
provided sources) — a date field is valid iff it is present and syntactically
parseable ("requires a syntactically valid open date AND close date"). -/
def isDateValid : Option JsDate → Bool
  | none => false
  | some d => d.parses

structure ForNext where
  term : Option Nat := none
  intervalType : Option String := none
deriving DecidableEq

structure AllowLateSubmissions where
  enabled : Bool := false
  forNext : Option ForNext := none
deriving DecidableEq

structure Schedule where
  enabled : Bool := false
  scheduleType : Option String := none
  openSubmissionDateTime : Option JsDate := none
  closeSubmissionDateTime : Option JsDate := none
  allowLateSubmissions : Option AllowLateSubmissions := none
  closingMessageEnabled : Bool := false
  closingMessage : Option String := none
deriving DecidableEq

/-- Result record of `validateScheduleObject`. -/
structure VResult where
  message : String
  status : String
deriving DecidableEq

/-- Embeds `isLateSubmissionConfigValid` (service.js lines 94-108). -/
def isLateSubmissionConfigValid (schedule : Schedule) : Bool :=
  let lateSubmissionsEnabled :=
    match schedule.allowLateSubmissions with
    | none => false
    | some al => al.enabled
  if lateSubmissionsEnabled then
    match schedule.allowLateSubmissions with
    | none => false
    | some al =>
      match al.forNext with
      | none => false
      | some fn => jsTruthyNat fn.term && jsTruthyStr fn.intervalType
  else
    true

/-- Embeds `isClosingMessageValid` (service.js lines 115-120). -/
def isClosingMessageValid (schedule : Schedule) : Bool :=
  if schedule.closingMessageEnabled then jsTruthyStr schedule.closingMessage else true

/-- Embeds `validateScheduleObject` (service.js lines 39-87): the open-date check
runs for every enabled schedule, before the scheduleType branch. -/
def validateScheduleObject (schedule : Schedule) : VResult :=
  if !schedule.enabled then
    { message := "", status := "success" }
  else if !isDateValid schedule.openSubmissionDateTime then
    { message := "Invalid open submission date.", status := "error" }
  else if schedule.scheduleType = some ScheduleTypeCLOSINGDATE then
    if !isDateValid schedule.closeSubmissionDateTime then
      { message := "Invalid closed submission date.", status := "error" }
    else if !isLateSubmissionConfigValid schedule then
      { message := "Invalid late submission data.", status := "error" }
    else if !isClosingMessageValid schedule then
      { message := "Invalid closing message.", status := "error" }
    else
      { message := "", status := "success" }
  else if schedule.scheduleType ≠ some ScheduleTypeMANUAL then
    { message := "Invalid schedule type.", status := "error" }
  else
    { message := "", status := "success" }

/- Data model: one record type per table touched by the embedded operations. -/

structure FormRec where
  id : String
  active : Bool := true
  identityProviders : List String := []
  enableSubmitterDraft : Bool := false
  allowSubmitterToUploadFile : Bool := false
deriving DecidableEq

structure FormVersionRec where
  id : String
  formId : String
  version : Nat
  schema : String := ""
  published : Bool
  createdBy : String := ""
  updatedBy : Option String := none
deriving DecidableEq

structure FormVersionDraftRec where
  id : String
  formId : String
  schema : String := ""
  createdBy : String := ""
deriving DecidableEq

/-- Submission payload column; bulk rows keep the shared metadata plus their
single slice of `submission.data`. -/
inductive SubPayload where
  | simple (body : String)
  | bulk (meta : String) (record : String)
deriving DecidableEq

structure FormSubmissionRec where
  id : String
  formVersionId : String
  confirmationId : String
  draft : Bool := false
  payload : SubPayload := .simple ""
  createdBy : String := ""
deriving DecidableEq

structure FormSubmissionUserRec where
  id : String
  userId : String
  formSubmissionId : String
  permission : String
  createdBy : String := ""
deriving DecidableEq

structure FormSubmissionStatusRec where
  id : String
  submissionId : String
  code : String
  createdBy : String := ""
deriving DecidableEq

structure FormApiKeyRec where
  id : String
  formId : String
  secret : String
  filesApiAccess : Bool := false
  createdBy : String := ""
  updatedBy : Option String := none
deriving DecidableEq

structure FileStorageRec where
  id : String
  formSubmissionId : Option String := none
  updatedBy : Option String := none
deriving DecidableEq

/-- The relational state the service operates on. -/
structure DB where
  forms : List FormRec := []
  versions : List FormVersionRec := []
  drafts : List FormVersionDraftRec := []
  submissions : List FormSubmissionRec := []
  submissionUsers : List FormSubmissionUserRec := []
  submissionStatuses : List FormSubmissionStatusRec := []
  apiKeys : List FormApiKeyRec := []
  files : List FileStorageRec := []
deriving DecidableEq

/-- The identity collaborator record `{id, usernameIdp, public}`. -/
structure UserInfo where
  id : String
  usernameIdp : String
  public : Bool
deriving DecidableEq

/-- Error outcomes: Objection `NotFoundError` from `throwIfNotFound`, api-problem
`Problem(code, msg)` (the spec names the 401 capability failures `Forbidden`),
and a failed transaction commit. -/
inductive Err where
  | notFound
  | problem (code : Nat) (msg : String)
  | commitFailed
deriving DecidableEq

/-- Embeds `readForm` (service.js lines 382-392): findById + filterActive
(active-only is the default), `throwIfNotFound` modelled as `Option`. -/
def readForm (db : DB) (formId : String) : Option FormRec :=
  db.forms.find? (fun f => f.id == formId && f.active)

/-- Embeds `readVersion` (service.js lines 671-673). -/
def readVersion (db : DB) (formVersionId : String) : Option FormVersionRec :=
  db.versions.find? (fun v => v.id == formVersionId)

/-- Embeds `readDraft` (service.js lines 913-915). -/
def readDraft (db : DB) (formVersionDraftId : String) : Option FormVersionDraftRec :=
  db.drafts.find? (fun d => d.id == formVersionDraftId)

/-- Embeds `readApiKey` (service.js lines 971-973): first row matching formId. -/
def readApiKey (db : DB) (formId : String) : Option FormApiKeyRec :=
  db.apiKeys.find? (fun k => k.formId == formId)

/-- First patch of `publishVersion`: set published=false (and updatedBy) on every
version of the form whose published flag equals the requested flag. -/
def pvClear (formId : String) (publish : Bool) (user : String) (v : FormVersionRec) :
    FormVersionRec :=
  if v.formId == formId && v.published == publish then
    { v with published := false, updatedBy := some user }
  else v

/-- Second patch of `publishVersion`: set the published flag (and updatedBy) on the
row with the target id; patching a missing id is a no-op, as in the source. -/
def pvSet (formVersionId : String) (publish : Bool) (user : String) (v : FormVersionRec) :
    FormVersionRec :=
  if v.id == formVersionId then
    { v with published := publish, updatedBy := some user }
  else v

/-- Embeds `publishVersion` (service.js lines 634-669).  `publish` is the flag the
source derives from `params.unpublish` via `falsey`.  The target row is selected
by id only; the source never checks that it belongs to the given form. -/
def publishVersion (db : DB) (formId formVersionId : String) (publish : Bool)
    (user : String) : DB × Except Err Unit :=
  match readForm db formId with
  | none => (db, .error .notFound)
  | some form =>
    ({ db with
        versions :=
          (db.versions.map (pvClear form.id publish user)).map
            (pvSet formVersionId publish user) },
      .ok ())

/-- The patch inside `publishDraft`: mark every version of the form unpublished
(this patch does not set updatedBy in the source). -/
def pdClear (formId : String) (v : FormVersionRec) : FormVersionRec :=
  if v.formId == formId then { v with published := false } else v

/-- Embeds `publishDraft` (service.js lines 919-960).  The version patch and the
new-version insert go through `query(trx)` and so take effect only when the
commit succeeds; the draft delete uses `FormVersionDraft.query()` WITHOUT the
transaction handle in the source, so it hits the durable state even when the
transaction later rolls back.  `commitOk` models whether the final commit
succeeds.  The new version number is `form.versions[0].version + 1` with the
versions ordered descending, i.e. the current maximum plus one, or 1 when the
form has no versions. -/
def publishDraft (db : DB) (formId formVersionDraftId user newVersionId : String)
    (commitOk : Bool) : DB × Except Err FormVersionRec :=
  match readForm db formId with
  | none => (db, .error .notFound)
  | some form =>
    match readDraft db formVersionDraftId with
    | none => (db, .error .notFound)
    | some draft =>
      let formVersions := db.versions.filter (fun v => v.formId == form.id)
      let newNumber := (formVersions.map (fun v => v.version)).foldr Nat.max 0 + 1
      let newVersion : FormVersionRec :=
        { id := newVersionId, formId := form.id, version := newNumber,
          schema := draft.schema, published := true, createdBy := user,
          updatedBy := none }
      let staged := (db.versions.map (pdClear form.id)) ++ [newVersion]
      let afterDraftDelete :=
        { db with drafts := db.drafts.filter (fun d => d.id != formVersionDraftId) }
      if commitOk then
        ({ afterDraftDelete with versions := staged }, .ok newVersion)
      else
        (afterDraftDelete, .error .commitFailed)

/-- The submission payload handed to `createSubmission`: the draft flag, the
submission body, and the file ids that `_findFileIds` extracts from the nested
`{data:{id:...}}` references of the body.  The four optional fields model the
payload keys that the trailing `...data` spread of the source lets override
the server-derived row fields (the spread comes last, so a payload that
round-trips an export and still carries `id`, `formVersionId`,
`confirmationId` or `createdBy` wins over the generated values); `none` means
the payload does not carry that key. -/
structure SubmissionData where
  draft : Bool
  payload : SubPayload := .simple ""
  fileIds : List String := []
  id : Option String := none
  formVersionId : Option String := none
  confirmationId : Option String := none
  createdBy : Option String := none

/-- The permission list built in `createSubmission` / `createMultiSubmission`:
always CREATE and READ, plus DELETE and UPDATE while the submission is a draft. -/
def permsFor (draft : Bool) : List String :=
  [PermSUBMISSION_CREATE, PermSUBMISSION_READ] ++
    (if draft then [PermSUBMISSION_DELETE, PermSUBMISSION_UPDATE] else [])

/-- The FormSubmissionUser rows inserted for one submission, one row per
permission, each with a fresh id. -/
def mkGrants (fresh : Nat → String) (k : Nat) (userId submissionId createdBy : String) :
    List String → List FormSubmissionUserRec
  | [] => []
  | perm :: rest =>
    { id := fresh k, userId := userId, formSubmissionId := submissionId,
      permission := perm, createdBy := createdBy }
      :: mkGrants fresh (k + 1) userId submissionId createdBy rest

/-- Embeds `createSubmission` (service.js lines 704-782).  `fresh` supplies the
successive `uuid.v4()` results (index 0 is the submission id).  The inserted
row is `{ id, formVersionId, confirmationId, createdBy, ...data }`: the spread
comes last, so any of those keys present in the payload overrides the derived
value (`Option.getD` applies the override when the payload carries the key).
The grant rows, the status row and their `submissionId` use the local
generated id, as in the source; the file patch uses `obj.id`. -/
def createSubmission (db : DB) (formVersionId : String) (data : SubmissionData)
    (currentUser : UserInfo) (fresh : Nat → String) :
    DB × Except Err FormSubmissionRec :=
  match readVersion db formVersionId with
  | none => (db, .error .notFound)
  | some formVersion =>
    match readForm db formVersion.formId with
    | none => (db, .error .notFound)
    | some form =>
      let isPublicForm := form.identityProviders.contains "public"
      let createdBy := if isPublicForm then "public" else currentUser.usernameIdp
      let submissionId := fresh 0
      let obj : FormSubmissionRec :=
        { id := data.id.getD submissionId,
          formVersionId := data.formVersionId.getD formVersion.id,
          confirmationId := data.confirmationId.getD (jsUpper (jsTake8 submissionId)),
          draft := data.draft, payload := data.payload,
          createdBy := data.createdBy.getD createdBy }
      let grants :=
        if !isPublicForm && !currentUser.public then
          mkGrants fresh 1 currentUser.id submissionId createdBy (permsFor data.draft)
        else []
      let newStatuses :=
        if !data.draft then
          db.submissionStatuses ++
            [{ id := fresh (1 + (permsFor data.draft).length),
               submissionId := submissionId, code := StatusSUBMITTED,
               createdBy := createdBy }]
        else db.submissionStatuses
      let newFiles := db.files.map (fun f =>
        if data.fileIds.contains f.id then
          { f with formSubmissionId := some obj.id,
                   updatedBy := some currentUser.usernameIdp }
        else f)
      ({ db with
          submissions := db.submissions ++ [obj],
          submissionUsers := db.submissionUsers ++ grants,
          submissionStatuses := newStatuses,
          files := newFiles },
        .ok obj)

/-- One element of the bulk `submission.data` array, with the operator/display
fields `popFormLevelInfo` strips; `content` stands for the remaining user data. -/
structure BulkRecord where
  submit : Option String := none
  lateEntry : Option String := none
  formConfirmationId : Option String := none
  formName : Option String := none
  formVersionLabel : Option String := none
  formCreatedAt : Option String := none
  formFullName : Option String := none
  formUsername : Option String := none
  formEmail : Option String := none
  formStatus : Option String := none
  formAssignee : Option String := none
  formAssigneeEmail : Option String := none
  hasFormObject : Bool := false
  content : String := ""
deriving DecidableEq

/-- Embeds `popFormLevelInfo` (service.js lines 1123-1146): deletes `submit` and
`lateEntry` from each record and, when a `form` object is present, the listed
server-generated display properties inside it. -/
def popFormLevelInfo (jsonPayload : List BulkRecord) : List BulkRecord :=
  jsonPayload.map (fun submission =>
    if submission.hasFormObject then
      { submission with
          submit := none, lateEntry := none,
          formConfirmationId := none, formName := none, formVersionLabel := none,
          formCreatedAt := none, formFullName := none, formUsername := none,
          formEmail := none, formStatus := none, formAssignee := none,
          formAssigneeEmail := none }
    else
      { submission with submit := none, lateEntry := none })

/-- The bulk payload handed to `createMultiSubmission`: the draft flag, the
submission-level metadata shared by every row, and the `submission.data` array. -/
structure MultiSubmissionData where
  draft : Bool
  submissionMeta : String := ""
  submissionData : List BulkRecord := []

/-- The FormSubmission rows built in the `createMultiSubmission` loop: one row per
record, each with a fresh id and derived confirmationId. -/
def mkBulkRows (fresh : Nat → String) (k : Nat) (formVersionId : String)
    (data : MultiSubmissionData) (createdBy : String) :
    List BulkRecord → List FormSubmissionRec
  | [] => []
  | r :: rest =>
    { id := fresh k, formVersionId := formVersionId,
      confirmationId := jsUpper (jsTake8 (fresh k)),
      draft := data.draft, payload := .bulk data.submissionMeta r.content,
      createdBy := createdBy }
      :: mkBulkRows fresh (k + 1) formVersionId data createdBy rest

/-- The grant rows for every bulk row: the same permission list per submission. -/
def mkAllGrants (fresh : Nat → String) (k : Nat) (userId createdBy : String)
    (perms : List String) : List FormSubmissionRec → List FormSubmissionUserRec
  | [] => []
  | s :: rest =>
    mkGrants fresh k userId s.id createdBy perms ++
      mkAllGrants fresh (k + perms.length) userId createdBy perms rest

/-- Embeds `createMultiSubmission` (service.js lines 783-851): the two capability
guards on the owning form throw `Problem(401, ...)` before the transaction is
even started, and the anonymous/public path throws `Problem(401, ...)` without
performing any insert. -/
def createMultiSubmission (db : DB) (formVersionId : String)
    (data : MultiSubmissionData) (currentUser : UserInfo) (fresh : Nat → String) :
    DB × Except Err (List FormSubmissionRec) :=
  match readVersion db formVersionId with
  | none => (db, .error .notFound)
  | some formVersion =>
    match readForm db formVersion.formId with
    | none => (db, .error .notFound)
    | some form =>
      if !form.enableSubmitterDraft then
        (db, .error (.problem 401 "This form is not allowed to save draft."))
      else if !form.allowSubmitterToUploadFile then
        (db, .error (.problem 401 "This form is not allowed for multi draft upload."))
      else
        let isPublicForm := form.identityProviders.contains "public"
        if !isPublicForm && !currentUser.public then
          let createdBy := currentUser.usernameIdp
          let rows :=
            mkBulkRows fresh 0 formVersion.id data createdBy
              (popFormLevelInfo data.submissionData)
          let perms := permsFor data.draft
          let grants := mkAllGrants fresh rows.length currentUser.id createdBy perms rows
          ({ db with
              submissions := db.submissions ++ rows,
              submissionUsers := db.submissionUsers ++ grants },
            .ok rows)
        else
          (db, .error (.problem 401 "This operation is not allowed to public."))

/-- Embeds `createOrReplaceApiKey` (service.js lines 976-1006): the replace branch
updates every row matching the form with a new secret and filesApiAccess=false;
the create branch inserts a fresh key with filesApiAccess=false. -/
def createOrReplaceApiKey (db : DB) (formId : String) (currentUser : UserInfo)
    (freshSecret freshId : String) : DB × Except Err (Option FormApiKeyRec) :=
  match readApiKey db formId with
  | some _currentKey =>
    let updated := db.apiKeys.map (fun k =>
      if k.formId == formId then
        { k with formId := formId, secret := freshSecret,
                 updatedBy := some currentUser.usernameIdp, filesApiAccess := false }
      else k)
    let db2 := { db with apiKeys := updated }
    (db2, .ok (readApiKey db2 formId))
  | none =>
    let db2 := { db with
      apiKeys := db.apiKeys ++
        [{ id := freshId, formId := formId, secret := freshSecret,
           filesApiAccess := false, createdBy := currentUser.usernameIdp,
           updatedBy := none }] }
    (db2, .ok (readApiKey db2 formId))

/- Temporal model: the sequence of externally visible steps each operation
performs on its success path, in source order. -/

inductive Step where
  | txStart
  | txCommit
  | dbRead (table : String)
  | dbWrite (table : String)
  | eventSvc (name : String)
  | relayPublish (name : String)
deriving DecidableEq

/-- Whether a step is an event-stream (broker relay) publish call. -/
def Step.isRelay : Step → Bool
  | .relayPublish _ => true
  | _ => false

/-- True iff the trace contains a commit, no relay publish occurs before it, and
a relay publish occurs after it. -/
def relayOnlyAfterCommit : List Step → Bool
  | [] => false
  | s :: rest =>
    if s = Step.txCommit then rest.any Step.isRelay
    else !s.isRelay && relayOnlyAfterCommit rest

/-- Success-path trace of `createSubmission` (service.js lines 704-782): the
`eventService.formSubmissionEventReceived` webhook notification is issued
inside the transaction window; the `eventStreamService.onSubmit` relay publish
only after the commit and the re-read. -/
def createSubmissionTrace (isPublicForm userPublic draft : Bool) (numFiles : Nat) :
    List Step :=
  [.dbRead "FormVersion", .dbRead "Form", .txStart, .dbWrite "FormSubmission"]
    ++ (if !isPublicForm && !userPublic then [.dbWrite "FormSubmissionUser"] else [])
    ++ (if !draft then [.dbWrite "FormSubmissionStatus"] else [])
    ++ [.eventSvc "formSubmissionEventReceived"]
    ++ List.replicate numFiles (.dbWrite "FileStorage")
    ++ [.txCommit, .dbRead "FormSubmission", .relayPublish "onSubmit"]

/-- Success-path trace of `publishVersion` (service.js lines 634-669). -/
def publishVersionTrace : List Step :=
  [.dbRead "Form", .txStart, .dbWrite "FormVersion", .dbWrite "FormVersion",
   .txCommit, .eventSvc "publishFormEvent", .dbRead "Form",
   .relayPublish "onPublish"]

/-- Success-path trace of `publishDraft` (service.js lines 919-960). -/
def publishDraftTrace : List Step :=
  [.dbRead "Form", .dbRead "FormVersionDraft", .txStart, .dbWrite "FormVersion",
   .dbWrite "FormVersion", .dbWrite "FormVersionDraft", .txCommit,
   .eventSvc "publishFormEvent", .dbRead "FormVersion",
   .relayPublish "onPublish"]

/-- The single-published-version invariant: no two entries of the version table
are simultaneously published for the same form. -/
def NoDoublePublish (vs : List FormVersionRec) : Prop :=
  vs.Pairwise (fun a b => ¬(a.published = true ∧ b.published = true ∧ a.formId = b.formId))

/-- Well-formedness of the version table: primary keys are distinct. -/
def UniqueVersionIds (vs : List FormVersionRec) : Prop :=
  vs.Pairwise (fun a b => a.id ≠ b.id)

instance {ε α : Type} [DecidableEq ε] [DecidableEq α] : DecidableEq (Except ε α) := fun x y =>
  match x, y with
  | .ok a, .ok b =>
    if h : a = b then isTrue (by rw [h]) else isFalse (fun he => h (Except.ok.inj he))
  | .error a, .error b =>
    if h : a = b then isTrue (by rw [h]) else isFalse (fun he => h (Except.error.inj he))
  | .ok _, .error _ => isFalse (fun he => Except.noConfusion he)
  | .error _, .ok _ => isFalse (fun he => Except.noConfusion he)

instance : DecidablePred (NoDoublePublish ·) := fun vs =>
  List.instDecidablePairwise vs

instance : DecidablePred (UniqueVersionIds ·) := fun vs =>
  List.instDecidablePairwise vs

/- Concrete states used to exercise the operations. -/

/-- A state with one form F and two versions that both belong to a different
form G, exactly one of them published: the target of the publish below is a
version of G, which `publishVersion` never rules out. -/
def dbCross : DB :=
  { forms := [{ id := "F" }],
    versions := [{ id := "v1", formId := "G", version := 1, published := true },
                 { id := "v2", formId := "G", version := 2, published := false }] }

/-- A one-form state with two of its own versions (one published) and a live draft. -/
def dbOwn : DB :=
  { forms := [{ id := "f1" }],
    versions := [{ id := "v1", formId := "f1", version := 1, published := true },
                 { id := "v2", formId := "f1", version := 2, published := false }],
    drafts := [{ id := "d1", formId := "f1", schema := "sch" }] }

/-- A one-form state with a published version and a live draft, used to exercise
the draft-publish transaction. -/
def dbDraft : DB :=
  { forms := [{ id := "f1" }],
    versions := [{ id := "v1", formId := "f1", version := 1, published := true }],
    drafts := [{ id := "d1", formId := "f1", schema := "sch" }] }

/-- An authenticated (non-anonymous) user. -/
def userAlice : UserInfo := { id := "u1", usernameIdp := "alice", public := false }

/-- A non-public form with one version, for the submission-creation claims. -/
def dbSub : DB :=
  { forms := [{ id := "f1", identityProviders := ["idir"] }],
    versions := [{ id := "v1", formId := "f1", version := 1, published := true }] }

/-- Fresh-uuid supply whose first value starts with the eight hex characters of
the spec's confirmationId example. -/
def freshHex : Nat → String := fun n =>
  if n = 0 then "abcdef12-3456-7890" else "11111111-2222"

/-- A non-draft submission payload. -/
def dataSubmitted : SubmissionData := { draft := false }

/-- A draft submission payload. -/
def dataDraft : SubmissionData := { draft := true }

/-- A round-tripped payload that still carries its own confirmationId key, as
the bulk-upload docstring in the source warns exports do. -/
def dataHacked : SubmissionData := { draft := false, confirmationId := some "HACKED" }

/-- The row `createSubmission` inserts for `dbSub`/`freshHex`/`dataHacked`: the
payload's confirmationId key overrides the derived one. -/
def subHacked : FormSubmissionRec :=
  { id := "abcdef12-3456-7890", formVersionId := "v1", confirmationId := "HACKED",
    draft := false, createdBy := "alice" }

/-- The form row of `dbSub`. -/
def formSub : FormRec := { id := "f1", identityProviders := ["idir"] }

/-- The version row of `dbSub`. -/
def fvSub : FormVersionRec := { id := "v1", formId := "f1", version := 1, published := true }

/-- The form row of `dbBulk`. -/
def formBulk : FormRec :=
  { id := "f1", identityProviders := ["idir"], enableSubmitterDraft := true,
    allowSubmitterToUploadFile := false }

/-- The version row of `dbBulk`. -/
def fvBulk : FormVersionRec := { id := "v1", formId := "f1", version := 1, published := true }

/-- The row `createSubmission` inserts for `dbSub`/`freshHex`/`userAlice`. -/
def subHex : FormSubmissionRec :=
  { id := "abcdef12-3456-7890", formVersionId := "v1", confirmationId := "ABCDEF12",
    draft := false, createdBy := "alice" }

/-- A form with submitter drafts enabled but file upload disabled, with one
version, for the bulk-creation guard claim. -/
def dbBulk : DB :=
  { forms := [{ id := "f1", identityProviders := ["idir"], enableSubmitterDraft := true,
                allowSubmitterToUploadFile := false }],
    versions := [{ id := "v1", formId := "f1", version := 1, published := true }] }

/-- A bulk payload with two records. -/
def dataBulk : MultiSubmissionData :=
  { draft := true, submissionData := [{ content := "r1" }, { content := "r2" }] }

/-- An enabled MANUAL schedule whose open date is present but unparseable. -/
def schedManualBadOpen : Schedule :=
  { enabled := true, scheduleType := some ScheduleTypeMANUAL,
    openSubmissionDateTime := some ⟨"not-a-date", false⟩ }

/-- An enabled MANUAL schedule with a parseable open date and an unparseable
close date. -/
def schedManualGoodOpen : Schedule :=
  { enabled := true, scheduleType := some ScheduleTypeMANUAL,
    openSubmissionDateTime := some ⟨"2030-01-01", true⟩,
    closeSubmissionDateTime := some ⟨"not-a-date", false⟩ }

/-- The literal input of the closing-date claim: enabled, scheduleType
closingdate, and nothing else set. -/
def schedClosingBare : Schedule :=
  { enabled := true, scheduleType := some ScheduleTypeCLOSINGDATE }

/-- An enabled CLOSINGDATE schedule with a parseable open date and no close date. -/
def schedClosingNoClose : Schedule :=
  { enabled := true, scheduleType := some ScheduleTypeCLOSINGDATE,
    openSubmissionDateTime := some ⟨"2030-01-01", true⟩ }

/-- A state whose form already has an api key with filesApiAccess granted. -/
def dbKey : DB :=
  { apiKeys := [{ id := "k1", formId := "f1", secret := "s1", filesApiAccess := true }] }

/-- The api key row after rotating the key of `dbKey`. -/
def keyRotated : FormApiKeyRec :=
  { id := "k1", formId := "f1", secret := "s2", filesApiAccess := false,
    updatedBy := some "alice" }

/- Theorems. -/

/-- C7 counterexample: an enabled MANUAL schedule whose openSubmissionDateTime is
present but syntactically invalid is rejected with the open-date error, so the
claimed "success regardless of date values" fails. -/
theorem C7_counterexample :
    validateScheduleObject schedManualBadOpen
        = { message := "Invalid open submission date.", status := "error" }
      ∧ (validateScheduleObject schedManualBadOpen).status ≠ "success" := by
  decide

/-- C7 (amended): an enabled MANUAL schedule is accepted regardless of the close
date and every other field, provided its open submission date is syntactically
valid; the open-date check runs before the scheduleType branch. -/
theorem C7_manual_valid (s : Schedule) (h1 : s.enabled = true)
    (h2 : s.scheduleType = some ScheduleTypeMANUAL)
    (h3 : isDateValid s.openSubmissionDateTime = true) :
    validateScheduleObject s = { message := "", status := "success" } := by
  unfold validateScheduleObject
  rw [h1, h2, h3]
  simp [ScheduleTypeMANUAL, ScheduleTypeCLOSINGDATE]

/-- C7 witness: a concrete enabled MANUAL schedule with a parseable open date and
an unparseable close date validates successfully. -/
theorem C7_witness :
    validateScheduleObject schedManualGoodOpen = { message := "", status := "success" } :=
  C7_manual_valid schedManualGoodOpen rfl rfl rfl

/-- C8 counterexample: on the claim's literal input (enabled, closingdate, no
other field) the open-date check fires first, so the result is the open-date
error, not the claimed closed-date error. -/
theorem C8_counterexample :
    validateScheduleObject schedClosingBare
        = { message := "Invalid open submission date.", status := "error" }
      ∧ validateScheduleObject schedClosingBare
          ≠ { message := "Invalid closed submission date.", status := "error" } := by
  decide

/-- C8 (amended): an enabled CLOSINGDATE schedule with a syntactically valid open
date and no closeSubmissionDateTime yields the closed-date error. -/
theorem C8_closingdate_missing_close (s : Schedule) (h1 : s.enabled = true)
    (h2 : s.scheduleType = some ScheduleTypeCLOSINGDATE)
    (h3 : isDateValid s.openSubmissionDateTime = true)
    (h4 : s.closeSubmissionDateTime = none) :
    validateScheduleObject s
      = { message := "Invalid closed submission date.", status := "error" } := by
  unfold validateScheduleObject
  rw [h1, h2, h3, h4]
  simp [isDateValid]

/-- C8 witness: a concrete enabled CLOSINGDATE schedule with a valid open date
and no close date yields the closed-date error. -/
theorem C8_witness :
    validateScheduleObject schedClosingNoClose
      = { message := "Invalid closed submission date.", status := "error" } :=
  C8_closingdate_missing_close schedClosingNoClose rfl rfl rfl rfl

/-- C2: evaluating `publishDraft` at a state with a live draft when the final
commit fails shows the rollback is not atomic: the staged version patch and
insert are undone, but the draft row — deleted through `FormVersionDraft.query()`
without the transaction handle — is already gone.  This contradicts the claimed
single-transaction behaviour and exhibits the source's slip (every other write
in the function goes through `query(trx)`). -/
theorem C2_rollback_loses_draft :
    (publishDraft dbDraft "f1" "d1" "alice" "nv1" false).2 = .error .commitFailed
      ∧ (publishDraft dbDraft "f1" "d1" "alice" "nv1" false).1.versions = dbDraft.versions
      ∧ (publishDraft dbDraft "f1" "d1" "alice" "nv1" false).1.drafts = [] := by
  decide

/-- C5: a `publishDraft` call whose draft id matches no FormVersionDraft row
fails with NotFoundError and leaves the whole state — in particular the
FormVersion table — unchanged; and a successful `publishDraft` always consumes
(removes) the draft row it was given, so a second attempt on the same id is in
that situation. -/
theorem C5_consumed_draft_not_found :
    (∀ (db : DB) (formId draftId user newVid : String) (ok : Bool),
        (∀ d ∈ db.drafts, d.id ≠ draftId) →
        publishDraft db formId draftId user newVid ok = (db, .error .notFound))
      ∧ (∀ (db : DB) (formId draftId user newVid : String) (db2 : DB) (v : FormVersionRec),
          publishDraft db formId draftId user newVid true = (db2, .ok v) →
          ∀ d ∈ db2.drafts, d.id ≠ draftId) := by
  constructor
  · intro db formId draftId user newVid ok habs
    unfold publishDraft
    split
    · rfl
    · have hnone : readDraft db draftId = none := by
        unfold readDraft
        refine List.find?_eq_none.mpr ?_
        intro d hd
        simp [habs d hd]
      split
      · rfl
      · next draft heq => rw [hnone] at heq; cases heq
  · intro db formId draftId user newVid db2 v h
    unfold publishDraft at h
    split at h
    · simp at h
    · split at h
      · simp at h
      · simp only [if_true, reduceIte] at h
        have hdb : db2.drafts = db.drafts.filter (fun d => d.id != draftId) := by
          have := congrArg (fun p => (Prod.fst p).drafts) h
          simpa using this.symm
        intro d hd
        rw [hdb] at hd
        have := (List.mem_filter.mp hd).2
        simpa using this

/-- C5 witness: after successfully publishing draft d1 of form f1, a second
publish of the same draft id fails with NotFoundError and changes nothing. -/
theorem C5_witness :
    publishDraft (publishDraft dbDraft "f1" "d1" "alice" "nv1" true).1
        "f1" "d1" "alice" "nv2" true
      = ((publishDraft dbDraft "f1" "d1" "alice" "nv1" true).1, .error .notFound) :=
  C5_consumed_draft_not_found.1
    (publishDraft dbDraft "f1" "d1" "alice" "nv1" true).1
    "f1" "d1" "alice" "nv2" true (by decide)

/-- C9 counterexample: a payload that still carries a confirmationId key (the
round-tripped-export shape the source's own bulk-upload docstring warns about)
overrides the derived value through the trailing `...data` spread, so the
stored confirmationId is not the first eight characters of the id. -/
theorem C9_counterexample :
    (createSubmission dbSub "v1" dataHacked userAlice freshHex).2 = .ok subHacked
      ∧ subHacked.confirmationId = "HACKED"
      ∧ subHacked.confirmationId ≠ jsUpper (jsTake8 subHacked.id) := by
  decide

/-- C9 (amended): every submission row `createSubmission` stores from a payload
of the documented shape — one carrying no id or confirmationId key of its own,
so the trailing spread overrides nothing — has confirmationId equal to the
first eight characters of its generated id, upper-cased. -/
theorem C9_confirmation_from_id (db : DB) (vid : String) (data : SubmissionData)
    (u : UserInfo) (fresh : Nat → String) (db2 : DB) (sub : FormSubmissionRec)
    (hid : data.id = none) (hconf : data.confirmationId = none)
    (h : createSubmission db vid data u fresh = (db2, .ok sub)) :
    sub.confirmationId = jsUpper (jsTake8 sub.id)
      ∧ db2.submissions = db.submissions ++ [sub] := by
  unfold createSubmission at h
  split at h
  · simp at h
  · split at h
    · simp at h
    · have hs := congrArg Prod.snd h
      have hd := congrArg (fun p => (Prod.fst p).submissions) h
      dsimp only at hs hd
      have hsub := Except.ok.inj hs
      subst hsub
      refine ⟨?_, hd.symm⟩
      rw [hid, hconf]
      rfl

/-- C9 witness: a submission created with generated id "abcdef12-3456-7890"
stores confirmationId "ABCDEF12". -/
theorem C9_witness :
    (createSubmission dbSub "v1" dataSubmitted userAlice freshHex).2 = .ok subHex
      ∧ subHex.confirmationId = jsUpper (jsTake8 subHex.id)
      ∧ subHex.confirmationId = "ABCDEF12" :=
  ⟨by decide,
   (C9_confirmation_from_id dbSub "v1" dataSubmitted userAlice freshHex
      (createSubmission dbSub "v1" dataSubmitted userAlice freshHex).1 subHex
      rfl rfl (by decide)).1,
   by decide⟩

/-- C10: after `createOrReplaceApiKey` — in both the create branch and the
replace (rotation) branch — every FormApiKey row of the form has
filesApiAccess = false, whatever the flag was before the call. -/
theorem C10_rotation_revokes_files_access (db : DB) (formId : String) (u : UserInfo)
    (freshSecret freshId : String) :
    ∀ k ∈ (createOrReplaceApiKey db formId u freshSecret freshId).1.apiKeys,
      k.formId = formId → k.filesApiAccess = false := by
  unfold createOrReplaceApiKey
  split
  · intro k hk hkf
    dsimp only at hk
    rcases List.mem_map.mp hk with ⟨k0, hk0, rfl⟩
    by_cases hc : (k0.formId == formId) = true
    · simp [hc]
    · simp [hc] at hkf ⊢
      exact absurd hkf (by simpa using hc)
  · next heq =>
    intro k hk hkf
    dsimp only at hk
    rcases List.mem_append.mp hk with h | h
    · have hno := List.find?_eq_none.mp (by unfold readApiKey at heq; exact heq) k h
      exact absurd (by simp [hkf]) hno
    · simp at h
      rw [h]

/-- The permission components of the grant rows are exactly the requested list. -/
theorem mkGrants_map_permission (fresh : Nat → String) (k : Nat)
    (userId submissionId createdBy : String) (perms : List String) :
    (mkGrants fresh k userId submissionId createdBy perms).map
        (fun r => r.permission) = perms := by
  induction perms generalizing k with
  | nil => rfl
  | cons p rest ih => simp [mkGrants, ih]

/-- C4: createSubmission inserts no FormSubmissionUser row when the form is
public or the caller is an anonymous (public) identity; for an authenticated
user on a non-public form it grants exactly CREATE and READ when draft=false
and exactly CREATE, READ, DELETE and UPDATE when draft=true. -/
theorem C4_submission_grants (db : DB) (vid : String) (data : SubmissionData)
    (u : UserInfo) (fresh : Nat → String) (fv : FormVersionRec) (form : FormRec)
    (hv : readVersion db vid = some fv)
    (hf : readForm db fv.formId = some form) :
    ((form.identityProviders.contains "public" || u.public) = true →
        (createSubmission db vid data u fresh).1.submissionUsers = db.submissionUsers)
      ∧ ((form.identityProviders.contains "public" || u.public) = false →
          ∃ rows,
            (createSubmission db vid data u fresh).1.submissionUsers
                = db.submissionUsers ++ rows
              ∧ rows.map (fun r => r.permission)
                  = if data.draft then
                      [PermSUBMISSION_CREATE, PermSUBMISSION_READ,
                       PermSUBMISSION_DELETE, PermSUBMISSION_UPDATE]
                    else [PermSUBMISSION_CREATE, PermSUBMISSION_READ]) := by
  unfold createSubmission
  split
  · next heq => rw [hv] at heq; cases heq
  · next formVersion heq =>
    rw [hv] at heq
    injection heq with heq2
    subst heq2
    split
    · next heq3 => rw [hf] at heq3; cases heq3
    · next form2 heq3 =>
      rw [hf] at heq3
      injection heq3 with heq4
      subst heq4
      constructor
      · intro hpub
        cases hcp : form.identityProviders.contains "public" <;>
          cases hup : u.public <;> simp_all
      · intro hpub
        have h1 : form.identityProviders.contains "public" = false := by
          cases hcp : form.identityProviders.contains "public" <;> simp_all
        have h2 : u.public = false := by
          cases hup : u.public <;> simp_all
        refine ⟨mkGrants fresh 1 u.id (fresh 0) u.usernameIdp (permsFor data.draft), ?_, ?_⟩
        · have h3 : ¬("public" ∈ form.identityProviders) := by simpa using h1
          dsimp only
          simp [h1, h2, h3]
        · rw [mkGrants_map_permission]
          cases hd : data.draft <;> simp [permsFor]

/-- C4 witness: for an authenticated user creating a draft submission on the
non-public form of `dbSub`, the grant rows are exactly CREATE, READ, DELETE and
UPDATE. -/
theorem C4_witness :
    ((formSub.identityProviders.contains "public" || userAlice.public) = true →
        (createSubmission dbSub "v1" dataDraft userAlice freshHex).1.submissionUsers
          = dbSub.submissionUsers)
      ∧ ((formSub.identityProviders.contains "public" || userAlice.public) = false →
          ∃ rows,
            (createSubmission dbSub "v1" dataDraft userAlice freshHex).1.submissionUsers
                = dbSub.submissionUsers ++ rows
              ∧ rows.map (fun r => r.permission)
                  = if dataDraft.draft then
                      [PermSUBMISSION_CREATE, PermSUBMISSION_READ,
                       PermSUBMISSION_DELETE, PermSUBMISSION_UPDATE]
                    else [PermSUBMISSION_CREATE, PermSUBMISSION_READ]) :=
  C4_submission_grants dbSub "v1" dataDraft userAlice freshHex fvSub formSub
    (by decide) (by decide)

/-- C6: createMultiSubmission rejects the call with a 401 problem (the spec's
Forbidden) and performs zero inserts — the state is returned unchanged —
whenever the owning form has enableSubmitterDraft=false or
allowSubmitterToUploadFile=false, or the form is public, or the caller is an
anonymous (public) identity. -/
theorem C6_bulk_guards (db : DB) (vid : String) (data : MultiSubmissionData)
    (u : UserInfo) (fresh : Nat → String) (fv : FormVersionRec) (form : FormRec)
    (hv : readVersion db vid = some fv)
    (hf : readForm db fv.formId = some form)
    (hdis : form.enableSubmitterDraft = false ∨ form.allowSubmitterToUploadFile = false ∨
        form.identityProviders.contains "public" = true ∨ u.public = true) :
    (createMultiSubmission db vid data u fresh).1 = db
      ∧ ∃ msg, (createMultiSubmission db vid data u fresh).2
          = .error (.problem 401 msg) := by
  unfold createMultiSubmission
  split
  · next heq => rw [hv] at heq; cases heq
  · next formVersion heq =>
    rw [hv] at heq
    injection heq with heq2
    subst heq2
    split
    · next heq3 => rw [hf] at heq3; cases heq3
    · next form2 heq3 =>
      rw [hf] at heq3
      injection heq3 with heq4
      subst heq4
      cases hE : form.enableSubmitterDraft <;>
        cases hA : form.allowSubmitterToUploadFile <;>
        cases hP : form.identityProviders.contains "public" <;>
        cases hU : u.public <;>
        simp_all

/-- C6 witness: bulk creation against the form of `dbBulk`, which has
allowSubmitterToUploadFile=false, fails with a 401 problem and inserts nothing. -/
theorem C6_witness :
    (createMultiSubmission dbBulk "v1" dataBulk userAlice freshHex).1 = dbBulk
      ∧ ∃ msg, (createMultiSubmission dbBulk "v1" dataBulk userAlice freshHex).2
          = .error (.problem 401 msg) :=
  C6_bulk_guards dbBulk "v1" dataBulk userAlice freshHex fvBulk formBulk
    (by decide) (by decide) (by decide)

/-- A run of plain row writes neither commits nor publishes, so it does not
affect where the relay publish sits relative to the commit. -/
theorem relayOnlyAfterCommit_replicate_write (n : Nat) (t : String) (rest : List Step) :
    relayOnlyAfterCommit (List.replicate n (Step.dbWrite t) ++ rest)
      = relayOnlyAfterCommit rest := by
  induction n with
  | zero => rfl
  | succ k ih =>
    rw [List.replicate_succ, List.cons_append]
    simp [relayOnlyAfterCommit, Step.isRelay, ih]

/-- C3: on every success path of createSubmission, publishVersion and
publishDraft, the event-stream relay publish (`onSubmit` / `onPublish`) is
issued strictly after the transaction commit and never between the transaction
start and its commit. -/
theorem C3_relay_after_commit :
    (∀ (isPublicForm userPublic draft : Bool) (numFiles : Nat),
        relayOnlyAfterCommit (createSubmissionTrace isPublicForm userPublic draft numFiles)
          = true)
      ∧ relayOnlyAfterCommit publishVersionTrace = true
      ∧ relayOnlyAfterCommit publishDraftTrace = true := by
  refine ⟨?_, by decide, by decide⟩
  intro isPublicForm userPublic draft numFiles
  cases isPublicForm <;> cases userPublic <;> cases draft <;>
    simp [createSubmissionTrace, relayOnlyAfterCommit, Step.isRelay,
      relayOnlyAfterCommit_replicate_write]

theorem pvClear_id_eq (f : String) (p : Bool) (u : String) (v : FormVersionRec) :
    (pvClear f p u v).id = v.id := by
  unfold pvClear; split <;> rfl

theorem pvClear_formId_eq (f : String) (p : Bool) (u : String) (v : FormVersionRec) :
    (pvClear f p u v).formId = v.formId := by
  unfold pvClear; split <;> rfl

theorem pvClear_published_eq (f : String) (p : Bool) (u : String) (v : FormVersionRec) :
    (pvClear f p u v).published
      = if (v.formId == f && v.published == p) = true then false else v.published := by
  unfold pvClear; split <;> simp_all

theorem pvSet_formId_eq (i : String) (p : Bool) (u : String) (w : FormVersionRec) :
    (pvSet i p u w).formId = w.formId := by
  unfold pvSet; split <;> rfl

theorem pvSet_published_eq (i : String) (p : Bool) (u : String) (w : FormVersionRec) :
    (pvSet i p u w).published = if (w.id == i) = true then p else w.published := by
  unfold pvSet; split <;> simp_all

/-- Pointwise preservation argument for the two patches of `publishVersion`: two
distinct rows that did not violate the invariant, at most one of which is the
target and any target row belongs to the published form, still do not violate
it after the clear-then-set patches. -/
theorem pv_pointwise (formId fvId : String) (publish : Bool) (user : String)
    (a b : FormVersionRec)
    (hP : ¬(a.published = true ∧ b.published = true ∧ a.formId = b.formId))
    (hNe : a.id ≠ b.id)
    (haOwn : a.id = fvId → a.formId = formId)
    (hbOwn : b.id = fvId → b.formId = formId) :
    ¬((pvSet fvId publish user (pvClear formId publish user a)).published = true
        ∧ (pvSet fvId publish user (pvClear formId publish user b)).published = true
        ∧ (pvSet fvId publish user (pvClear formId publish user a)).formId
            = (pvSet fvId publish user (pvClear formId publish user b)).formId) := by
  rintro ⟨hpa, hpb, hff⟩
  rw [pvSet_published_eq, pvClear_published_eq, pvClear_id_eq] at hpa hpb
  rw [pvSet_formId_eq, pvClear_formId_eq, pvSet_formId_eq, pvClear_formId_eq] at hff
  cases publish <;>
    by_cases ha1 : (a.id == fvId) = true <;>
    by_cases hb1 : (b.id == fvId) = true <;>
    by_cases hap : a.published = true <;>
    by_cases hbp : b.published = true <;>
    by_cases haf : (a.formId == formId) = true <;>
    by_cases hbf : (b.formId == formId) = true <;>
    simp_all

theorem pdClear_formId_eq (f : String) (v : FormVersionRec) :
    (pdClear f v).formId = v.formId := by
  unfold pdClear; split <;> rfl

theorem pdClear_published_eq (f : String) (v : FormVersionRec) :
    (pdClear f v).published
      = if (v.formId == f) = true then false else v.published := by
  unfold pdClear; split <;> simp_all

/-- Pointwise preservation argument for the blanket unpublish patch of
`publishDraft`. -/
theorem pd_pointwise (f : String) (a b : FormVersionRec)
    (h : ¬(a.published = true ∧ b.published = true ∧ a.formId = b.formId)) :
    ¬((pdClear f a).published = true ∧ (pdClear f b).published = true
        ∧ (pdClear f a).formId = (pdClear f b).formId) := by
  rintro ⟨hpa, hpb, hff⟩
  rw [pdClear_published_eq] at hpa hpb
  rw [pdClear_formId_eq, pdClear_formId_eq] at hff
  by_cases h1 : (a.formId == f) = true <;> by_cases h2 : (b.formId == f) = true <;>
    simp_all

/-- C1 counterexample: `dbCross` satisfies the single-published invariant, yet
publishing under form F a target version id that belongs to form G leaves G
with two published versions — `publishVersion` never checks the target's
owning form. -/
theorem C1_counterexample :
    NoDoublePublish dbCross.versions
      ∧ ¬ NoDoublePublish (publishVersion dbCross "F" "v2" true "u").1.versions := by
  decide

/-- C1 (amended): provided the version table has distinct primary keys and the
target version id (wherever it occurs) belongs to the form being published,
`publishVersion` preserves the at-most-one-published-version-per-form
invariant, for publishing and unpublishing alike; `publishDraft` preserves it
unconditionally, including when the commit fails. -/
theorem C1_single_published_preserved :
    (∀ (db : DB) (formId fvId user : String) (publish : Bool),
        NoDoublePublish db.versions →
        UniqueVersionIds db.versions →
        (∀ v ∈ db.versions, v.id = fvId → v.formId = formId) →
        NoDoublePublish (publishVersion db formId fvId publish user).1.versions)
      ∧ (∀ (db : DB) (formId draftId user newVid : String) (ok : Bool),
          NoDoublePublish db.versions →
          NoDoublePublish (publishDraft db formId draftId user newVid ok).1.versions) := by
  constructor
  · intro db formId fvId user publish hInv hIds hOwn
    unfold publishVersion
    split
    · exact hInv
    · next form heq =>
      have hfid : form.id = formId := by
        unfold readForm at heq
        have h2 := List.find?_some heq
        simp only [Bool.and_eq_true, beq_iff_eq] at h2
        exact h2.1
      dsimp only
      rw [hfid]
      unfold NoDoublePublish at hInv ⊢
      unfold UniqueVersionIds at hIds
      rw [List.pairwise_map, List.pairwise_map]
      refine List.Pairwise.imp_of_mem ?_ (hInv.and hIds)
      intro a b ha hb hR
      exact pv_pointwise formId fvId publish user a b hR.1 hR.2 (hOwn a ha) (hOwn b hb)
  · intro db formId draftId user newVid ok hInv
    unfold publishDraft
    split
    · exact hInv
    · next form heq =>
      split
      · exact hInv
      · next draft heq2 =>
        dsimp only
        split
        · unfold NoDoublePublish at hInv ⊢
          rw [List.pairwise_append]
          refine ⟨?_, by simp, ?_⟩
          · rw [List.pairwise_map]
            exact hInv.imp (fun {a b} h => pd_pointwise form.id a b h)
          · intro x hx y hy
            simp only [List.mem_singleton] at hy
            subst hy
            rintro ⟨hxp, hyp, hxf⟩
            rcases List.mem_map.mp hx with ⟨v, hv, rfl⟩
            rw [pdClear_published_eq] at hxp
            by_cases hc : (v.formId == form.id) = true
            · simp [hc] at hxp
            · rw [pdClear_formId_eq] at hxf
              have h2 : v.formId = form.id := hxf
              simp [h2] at hc
        · exact hInv

/-- C1 witness: both preservation statements applied to the one-form state
`dbOwn`, publishing its own second version and publishing its draft. -/
theorem C1_witness :
    NoDoublePublish (publishVersion dbOwn "f1" "v2" true "alice").1.versions
      ∧ NoDoublePublish (publishDraft dbOwn "f1" "d1" "alice" "nv1" true).1.versions :=
  ⟨C1_single_published_preserved.1 dbOwn "f1" "v2" "alice" true
      (by decide) (by decide) (by decide),
   C1_single_published_preserved.2 dbOwn "f1" "d1" "alice" "nv1" true (by decide)⟩

/-- C10 witness: rotating the api key of a form whose key currently has
filesApiAccess = true produces a key row with filesApiAccess = false. -/
theorem C10_witness :
    keyRotated ∈ (createOrReplaceApiKey dbKey "f1" userAlice "s2" "k2").1.apiKeys
      ∧ keyRotated.filesApiAccess = false :=
  ⟨by decide,
   C10_rotation_revokes_files_access dbKey "f1" userAlice "s2" "k2" keyRotated
     (by decide) (by decide)⟩

end Chefs
